import Mathlib

/-!
Shallow embedding of `src/pyLegoMario/mario.py` (the `Mario` class, its hook
registries, the notification decoder `_handle_events`, the command facade and
the connect/disconnect retry machinery), together with theorems checking the
natural-language specification against it.

Conventions of the embedding:
* raw bytes are `Nat` (values 0..255 as delivered by the transport);
* Python `IndexError` on `data[i]` is modelled by matching on `List.getElem?`;
  the spec calls this failure mode `MalformedFrame`;
* Python `AssertionError` (the spec's `ValidationError`) is a distinct error;
* hook callables are identified by `Nat` ids; a value passed to a hook
  registration method is a `HookArg` (callable, iterable, or neither -
  e.g. `None`, the constructor's default);
* the observable side effects of a call (hook invocations, cached-field
  writes, GATT writes, task scheduling) are recorded as a `TraceOp` list, in
  the order the source performs them.  A hook-invocation op also records the
  cached field of `self` at the moment the hook is called, since hooks
  receive `self`;
* the lookup tables and command constants imported from `LEGO_MARIO_DATA`
  are parameters (`Tables`, or explicit `List Nat` arguments): the claims
  under scrutiny hold for every table, so nothing of the missing module's
  contents needs to be assumed.
-/

set_option autoImplicit false

namespace PyLegoMario

/-- A raw byte as found in a notification frame. -/
abbrev Byte := Nat

/-- Python errors that `mario.py` code paths can raise.  `indexError` is an
out-of-range `data[i]` (the spec's `MalformedFrame`); `assertionError` is a
failed `assert` (the spec's `ValidationError`). -/
inductive PyErr where
  | indexError
  | assertionError
  deriving Repr, DecidableEq

/-- A value passed to a hook registration method: a single callable, an
iterable of such values, or anything else (e.g. `None`), which the source
methods silently ignore (`if callable(...)` / `elif hasattr(..., '__iter__')`
with no else branch). -/
inductive HookArg where
  | callable (f : Nat)
  | iterable (fs : List HookArg)
  | notCallableNotIterable
  deriving Repr

/-- Log messages. `_log` builds f-strings; we keep one constructor per call
site, carrying the dynamic parts (the raw frame stands in for `data.hex()`,
which is injective on byte lists). -/
inductive LogMsg where
  | idle (hexData : List Byte)
  | tileLog (tile : String) (hexData : List Byte)
  | groundLog (color : String) (hexData : List Byte)
  | gestureLog (gesture : String)
  | accelLog (x y z : Int)
  | pantsLog (pants : String) (pantsByte : Byte) (hexData : List Byte)
  | port3Jump (tile : String) (hexData : List Byte)
  | port3Unknown (tail : List Byte) (hexData : List Byte)
  | unknownPort (port : Byte) (tail : List Byte) (hexData : List Byte)
  | hubActionLog (action : String) (hexData : List Byte)
  | portAttached (port : Byte) (hexData : List Byte)
  | portDetached (port : Byte) (hexData : List Byte)
  | portModeChange (port mode : Byte) (notify : Bool) (hexData : List Byte)
  | hubPropertyLog (prop : String) (payload : List Byte) (hexData : List Byte)
  | unknownMessage (hexData : List Byte)
  deriving Repr, DecidableEq

/-- One observable side effect performed by the `Mario` code, in program
order.  Hook-invocation ops carry the cached field of `self` at call time. -/
inductive TraceOp where
  | callLogHook (f : Nat) (msg : LogMsg)
  | setRecentTile (tile : String)
  | setGround (tile : String)
  | setAcceleration (x y z : Int)
  | setPants (p : String)
  | callTileHook (f : Nat) (groundSeen : Option String) (tile : String)
  | callAccelHook (f : Nat) (accelSeen : Option (Int × Int × Int)) (x y z : Int)
  | callPantsHook (f : Nat) (pantsSeen : Option String) (powerup : String)
  | writeGatt (command : List Byte)
  | scheduleDisconnect
  deriving Repr, DecidableEq

/-- The mutable state of a `Mario` object (`__init__`, lines 72-93). -/
structure MarioState where
  pants : Option String
  ground : Option String
  acceleration : Option (Int × Int × Int)
  recentTile : Option String
  accelerometerEventHooks : List Nat
  tileEventHooks : List Nat
  pantsEventHooks : List Nat
  logEventHooks : List Nat
  client : Bool
  run : Bool
  autoReconnect : Bool
  deriving Repr, DecidableEq

/-- The lookup tables imported from `LEGO_MARIO_DATA` (not under `src/`);
every claim below holds for an arbitrary choice of tables, so they are
parameters of the embedding. `BINARY_GESTURES` is an association list in
dict insertion order. -/
structure Tables where
  HEX_TO_RGB_TILE : Byte → Option String
  HEX_TO_COLOR_TILE : Byte → Option String
  HEX_TO_PANTS : Byte → Option String
  HEX_TO_HUB_ACTIONS : Byte → Option String
  HEX_TO_HUB_PROPERTIES : Byte → Option String
  BINARY_GESTURES : List (Nat × String)

/-- Shared body of the four `Add*Hook` methods (lines 119-185): a callable is
appended to the registry, an iterable is traversed recursively, anything else
is silently ignored. -/
def addHooksTo : HookArg → List Nat → List Nat
  | .callable f, hooks => hooks ++ [f]
  | .iterable [], hooks => hooks
  | .iterable (a :: as), hooks => addHooksTo (.iterable as) (addHooksTo a hooks)
  | .notCallableNotIterable, hooks => hooks

/-- `Mario.AddTileHook` (lines 136-151). -/
def AddTileHook (funcs : HookArg) (st : MarioState) : MarioState :=
  { st with tileEventHooks := addHooksTo funcs st.tileEventHooks }

/-- `Mario.AddAccelerometerHook` (lines 153-168). -/
def AddAccelerometerHook (funcs : HookArg) (st : MarioState) : MarioState :=
  { st with accelerometerEventHooks := addHooksTo funcs st.accelerometerEventHooks }

/-- `Mario.AddPantsHook` (lines 170-185). -/
def AddPantsHook (funcs : HookArg) (st : MarioState) : MarioState :=
  { st with pantsEventHooks := addHooksTo funcs st.pantsEventHooks }

/-- `Mario.AddLogHook` (lines 119-134). -/
def AddLogHook (funcs : HookArg) (st : MarioState) : MarioState :=
  { st with logEventHooks := addHooksTo funcs st.logEventHooks }

/-- `Mario.RemoveEventsHook` (lines 188-208): for a callable, each of the four
registries in `ALLHOOKS` drops its first occurrence of the callable if present
(`if funcs in hooktype: hooktype.remove(funcs)` = `List.erase`); an iterable
is traversed recursively; anything else is ignored. -/
def RemoveEventsHook : HookArg → MarioState → MarioState
  | .callable f, st =>
    { st with
      accelerometerEventHooks := st.accelerometerEventHooks.erase f
      pantsEventHooks := st.pantsEventHooks.erase f
      tileEventHooks := st.tileEventHooks.erase f
      logEventHooks := st.logEventHooks.erase f }
  | .iterable [], st => st
  | .iterable (a :: as), st => RemoveEventsHook (.iterable as) (RemoveEventsHook a st)
  | .notCallableNotIterable, st => st

/-- `Mario.__init__` field initialisation followed by the four hook
registration calls (lines 72-98); `_client = None`, `_run = False`,
`_autoReconnect = True`. -/
def marioInit (accelArg tileArg pantsArg logArg : HookArg) : MarioState :=
  let st : MarioState :=
    { pants := none, ground := none, acceleration := none, recentTile := none
      accelerometerEventHooks := [], tileEventHooks := []
      pantsEventHooks := [], logEventHooks := []
      client := false, run := false, autoReconnect := true }
  AddLogHook logArg (AddPantsHook pantsArg (AddTileHook tileArg
    (AddAccelerometerHook accelArg st)))

/-- `Mario._log` (lines 106-117): calls every registered log hook with the
message (the stdout print has no program-visible effect and is omitted). -/
def logTrace (st : MarioState) (msg : LogMsg) : List TraceOp :=
  st.logEventHooks.map (fun f => .callLogHook f msg)

/-- `Mario._callTileHooks` (lines 211-214): `self.ground = tile` first, then
each tile hook is called with `self` (whose `ground` is already updated) and
the tile. -/
def callTileHooks (st : MarioState) (tile : String) : MarioState × List TraceOp :=
  let st1 := { st with ground := some tile }
  (st1, .setGround tile ::
    st1.tileEventHooks.map (fun f => .callTileHook f st1.ground tile))

/-- `Mario._callAccelerometerHooks` (lines 216-219). -/
def callAccelerometerHooks (st : MarioState) (x y z : Int) :
    MarioState × List TraceOp :=
  let st1 := { st with acceleration := some (x, y, z) }
  (st1, .setAcceleration x y z ::
    st1.accelerometerEventHooks.map (fun f => .callAccelHook f st1.acceleration x y z))

/-- `Mario._callPantsHooks` (lines 221-224). -/
def callPantsHooks (st : MarioState) (powerup : String) :
    MarioState × List TraceOp :=
  let st1 := { st with pants := some powerup }
  (st1, .setPants powerup ::
    st1.pantsEventHooks.map (fun f => .callPantsHook f st1.pants powerup))

/-- `signed` (lines 499-500): `char - 256 if char > 127 else char`. -/
def signed (char : Byte) : Int :=
  if char > 127 then (char : Int) - 256 else (char : Int)

/-- Python `hex(n)` for a nonnegative `n`: `0x` followed by lowercase hex
digits. -/
def pyHex (n : Nat) : String :=
  "0x" ++ String.mk (Nat.toDigits 16 n)

/-- Python `bytes.hex()` of one byte: two lowercase hex digits. -/
def byteHex (b : Byte) : String :=
  String.mk [Nat.digitChar (b / 16 % 16), Nat.digitChar (b % 16)]

/-- Python `data.hex()` of a byte sequence. -/
def pyBytesHex (l : List Byte) : String :=
  String.join (l.map byteHex)

/-- Fallback string for an unmapped tile code
(`f"Unkown Tile Code: \x7bhex(data[4])\x7d"`, line 247, typo preserved). -/
def unknownTileStr (code : Byte) : String :=
  "Unkown Tile Code: " ++ pyHex code

/-- Fallback string for an unmapped ground color code (line 255). -/
def unknownColorStr (code : Byte) : String :=
  "Unkown Color: " ++ pyHex code

/-- Python `int.from_bytes(l, "big")`. -/
def intFromBytesBE (l : List Byte) : Nat :=
  l.foldl (fun a b => a * 256 + b) 0

/-- Result of one `_handle_events` notification: the state after the call,
the side effects in program order, and whether the call raised.  Effects
performed before a raise would be kept; on every raising path of the source
the raise happens before any effect, so the trace there is `[]`. -/
structure HandleResult where
  state : MarioState
  trace : List TraceOp
  error : Option PyErr
  deriving Repr, DecidableEq

/-- `Mario._handle_events` (lines 226-330).  Each `data[i]` subscript is
modelled by a match on `data[i]?`, placed where the source evaluates it
(Python's chained `data[5] == data[6] == 0xff` evaluates both subscripts;
`data[4] == 0x13 and data[5] == 0x01` short-circuits).  Slices never raise. -/
def handle_events (T : Tables) (st : MarioState) (data : List Byte) :
    HandleResult :=
  let hex_data := data
  match data[2]? with
  | none => ⟨st, [], some .indexError⟩
  | some d2 =>
  if d2 = 0x45 then
    match data[3]? with
    | none => ⟨st, [], some .indexError⟩
    | some d3 =>
    -- Camera Sensor Data
    if d3 = 0x01 then
      match data[5]?, data[6]? with
      | some d5, some d6 =>
        if d5 = d6 ∧ d6 = 0xff then
          ⟨st, logTrace st (.idle hex_data), none⟩
        else if d5 = 0x00 then
          -- RGB code
          match data[4]? with
          | some d4 =>
            let tile := (T.HEX_TO_RGB_TILE d4).getD (unknownTileStr d4)
            let st1 := { st with recentTile := some tile }
            let t1 := TraceOp.setRecentTile tile :: logTrace st1 (.tileLog tile hex_data)
            let r := callTileHooks st1 tile
            ⟨r.1, t1 ++ r.2, none⟩
          | none => ⟨st, [], some .indexError⟩
        else if d5 = 0xff then
          -- Ground Colors
          let color := (T.HEX_TO_COLOR_TILE d6).getD (unknownColorStr d6)
          let t1 := logTrace st (.groundLog color hex_data)
          let r := callTileHooks st color
          ⟨r.1, t1 ++ r.2, none⟩
        else ⟨st, [], none⟩
      | _, _ => ⟨st, [], some .indexError⟩
    -- Accelerometer data
    else if d3 = 0x00 then
      -- Gesture Mode: `data[4:6] == data[6:]`
      if (data.drop 4).take 2 = data.drop 6 then
        let integer_data := intFromBytesBE ((data.drop 4).take 2)
        let gesture := T.BINARY_GESTURES.foldl
          (fun g p => if integer_data &&& p.1 ≠ 0 then g ++ p.2 else g) ""
        ⟨st, logTrace st (.gestureLog gesture), none⟩
      -- RAW Mode
      else
        match data[4]?, data[5]?, data[6]? with
        | some d4, some d5, some d6 =>
          let x := signed d4
          let y := signed d5
          let z := signed d6
          let t1 := logTrace st (.accelLog x y z)
          let r := callAccelerometerHooks st x y z
          ⟨r.1, t1 ++ r.2, none⟩
        | _, _, _ => ⟨st, [], some .indexError⟩
    -- Pants data
    else if d3 = 0x02 then
      match data[4]? with
      | some d4 =>
        let pants := (T.HEX_TO_PANTS d4).getD "Unkown"
        let t1 := logTrace st (.pantsLog pants d4 hex_data)
        let r := callPantsHooks st pants
        ⟨r.1, t1 ++ r.2, none⟩
      | none => ⟨st, [], some .indexError⟩
    -- Port 3 data
    else if d3 = 0x03 then
      match data[4]? with
      | none => ⟨st, [], some .indexError⟩
      | some d4 =>
        if d4 = 0x13 then
          match data[5]? with
          | none => ⟨st, [], some .indexError⟩
          | some d5 =>
            if d5 = 0x01 then
              match data[6]? with
              | some d6 =>
                let tile := (T.HEX_TO_RGB_TILE d6).getD "Unkown Tile"
                ⟨st, logTrace st (.port3Jump tile hex_data), none⟩
              | none => ⟨st, [], some .indexError⟩
            else ⟨st, logTrace st (.port3Unknown (data.drop 4) hex_data), none⟩
        else ⟨st, logTrace st (.port3Unknown (data.drop 4) hex_data), none⟩
    else ⟨st, logTrace st (.unknownPort d3 (data.drop 4) hex_data), none⟩
  -- Hub Actions
  else if d2 = 0x02 then
    match data[3]? with
    | none => ⟨st, [], some .indexError⟩
    | some d3 =>
      let action := (T.HEX_TO_HUB_ACTIONS d3).getD
        ("Unkown Hub Action, Hex: " ++ pyBytesHex hex_data)
      let t1 := logTrace st (.hubActionLog action hex_data)
      -- 0x31 = Hub Will Disconnect
      if d3 = 0x31 then ⟨st, t1 ++ [.scheduleDisconnect], none⟩
      else ⟨st, t1, none⟩
  -- Hub Attached I/O
  else if d2 = 0x04 then
    match data[4]? with
    | none => ⟨st, [], some .indexError⟩
    | some d4 =>
      match data[3]? with
      | none => ⟨st, [], some .indexError⟩
      | some d3 =>
        if d4 ≠ 0 then ⟨st, logTrace st (.portAttached d3 hex_data), none⟩
        else ⟨st, logTrace st (.portDetached d3 hex_data), none⟩
  -- Port Input Format Handshake
  else if d2 = 0x47 then
    match data[3]?, data[4]?, data[9]? with
    | some d3, some d4, some d9 =>
      ⟨st, logTrace st (.portModeChange d3 d4 (d9 ≠ 0) hex_data), none⟩
    | _, _, _ => ⟨st, [], some .indexError⟩
  -- Hub Property Update
  else if d2 = 0x01 then
    match data[4]? with
    | none => ⟨st, [], some .indexError⟩
    | some d4 =>
      if d4 = 0x06 then
        match data[3]? with
        | none => ⟨st, [], some .indexError⟩
        | some d3 =>
          let prop := (T.HEX_TO_HUB_PROPERTIES d3).getD "Unknown Property"
          ⟨st, logTrace st (.hubPropertyLog prop (data.drop 5) hex_data), none⟩
      else ⟨st, logTrace st (.unknownMessage hex_data), none⟩
  else ⟨st, logTrace st (.unknownMessage hex_data), none⟩

/-- `Mario.request_port_value` (lines 387-411): `assert port in (0,1,2,3,4,6)`
before anything else; then, only if a client is live, write
`REQUEST_RGB_COMMAND` with byte 3 replaced by the port. -/
def request_port_value (REQUEST_RGB_COMMAND : List Byte) (st : MarioState)
    (port : Nat) : MarioState × List TraceOp × Option PyErr :=
  if port = 0 ∨ port = 1 ∨ port = 2 ∨ port = 3 ∨ port = 4 ∨ port = 6 then
    if st.client then
      (st, [.writeGatt (REQUEST_RGB_COMMAND.set 3 port)], none)
    else (st, [], none)
  else (st, [], some .assertionError)

/-- `Mario.set_volume` (lines 413-431): clamp to [0,100] first
(`min(max(new_volume, 0), 100)`), then, only if a client is live, schedule a
write of `MUTE_COMMAND[:5] + [new_volume]`. -/
def set_volume (MUTE_COMMAND : List Byte) (st : MarioState)
    (new_volume : Int) : MarioState × List TraceOp :=
  let v := min (max new_volume 0) 100
  if st.client then
    (st, [.writeGatt (MUTE_COMMAND.take 5 ++ [v.toNat])])
  else (st, [])

/-- The `while self._run` scan loop of `Mario.connect` (lines 335-341) in the
run where no matching device is ever discovered: counts the scan
(`BleakScanner.discover`) attempts performed before `retries > 3` breaks the
loop.  `retries` is incremented at the top of each iteration and checked
before scanning. -/
def connectLoopScans (run : Bool) (retries : Nat) : Nat :=
  if run then
    if retries + 1 > 3 then 0
    else 1 + connectLoopScans run (retries + 1)
  else 0
termination_by 4 - retries
decreasing_by simp_wf; omega

/-- `Mario.disconnect` (lines 475-488), state part: clears the client; when
`_autoReconnect` is true it schedules a fresh `connect()` task (returned
boolean), otherwise it sets `_run = False`. -/
def disconnect_step (st : MarioState) : MarioState × Bool :=
  if st.autoReconnect then ({ st with client := false }, true)
  else ({ st with client := false, run := false }, false)

/-- Total number of scan attempts after `n` scheduled executions of
`connect()` when no device is ever found: each execution runs the scan loop
(`connect` sets `_run = True`, `retries = 0` on entry, lines 333-334) and its
trailing `disconnect()` schedules the next execution exactly when
`autoReconnect` holds. -/
def sessionScansNoDevice (autoReconnect : Bool) : Nat → Nat
  | 0 => 0
  | n + 1 =>
    connectLoopScans true 0 +
    (if autoReconnect then sessionScansNoDevice autoReconnect n else 0)

/-- The tile-hook invocations of a trace, in order, as (hook, payload). -/
def tileCalls : List TraceOp → List (Nat × String)
  | [] => []
  | .callTileHook f _ t :: rest => (f, t) :: tileCalls rest
  | _ :: rest => tileCalls rest

/-- The accelerometer-hook invocations of a trace, in order. -/
def accelCalls : List TraceOp → List (Nat × Int × Int × Int)
  | [] => []
  | .callAccelHook f _ x y z :: rest => (f, x, y, z) :: accelCalls rest
  | _ :: rest => accelCalls rest

/-- The pants-hook invocations of a trace, in order. -/
def pantsCalls : List TraceOp → List (Nat × String)
  | [] => []
  | .callPantsHook f _ p :: rest => (f, p) :: pantsCalls rest
  | _ :: rest => pantsCalls rest

/-- Whether a trace op invokes any registered hook (of any category,
log hooks included). -/
def isHookCall : TraceOp → Bool
  | .callTileHook .. => true
  | .callAccelHook .. => true
  | .callPantsHook .. => true
  | .callLogHook .. => true
  | _ => false

/-- A hook-invocation op is cache-consistent when the cached field of `self`
it observes already holds the payload being dispatched; non-invocation ops
are vacuously consistent. -/
def cacheConsistent : TraceOp → Bool
  | .callTileHook _ g t => g = some t
  | .callAccelHook _ a x y z => a = some (x, y, z)
  | .callPantsHook _ p q => p = some q
  | _ => true

/-- A small concrete instance of the `LEGO_MARIO_DATA` tables, used to
evaluate the theorems below on closed inputs. -/
def tinyTables : Tables :=
  { HEX_TO_RGB_TILE := fun c => if c = 0x20 then some "Start" else none
    HEX_TO_COLOR_TILE := fun c => if c = 0x17 then some "Red" else none
    HEX_TO_PANTS := fun c => if c = 0x0a then some "Mario" else none
    HEX_TO_HUB_ACTIONS := fun c => if c = 0x30 then some "Switch Off" else none
    HEX_TO_HUB_PROPERTIES := fun c => if c = 0x03 then some "Firmware" else none
    BINARY_GESTURES := [(1, "Bump")] }

/-- A concrete session state with a live client, two tile hooks, one
accelerometer hook and one pants hook registered. -/
def st0 : MarioState :=
  { pants := none, ground := none, acceleration := none, recentTile := none
    accelerometerEventHooks := [9], tileEventHooks := [1, 2]
    pantsEventHooks := [7], logEventHooks := []
    client := true, run := false, autoReconnect := true }

/-- Log-hook invocations contribute no tile-hook calls. -/
theorem tileCalls_logHooks_append (hooks : List Nat) (m : LogMsg) (l : List TraceOp) :
    tileCalls (hooks.map (fun f => TraceOp.callLogHook f m) ++ l) = tileCalls l := by
  induction hooks with
  | nil => rfl
  | cons a as ih => simpa [tileCalls] using ih

/-- Extracting tile calls from a block of tile-hook invocation ops. -/
theorem tileCalls_map_callTile (hooks : List Nat) (g : Option String) (t : String) :
    tileCalls (hooks.map (fun f => TraceOp.callTileHook f g t)) =
      hooks.map (fun f => (f, t)) := by
  induction hooks with
  | nil => rfl
  | cons a as ih => simp [tileCalls, ih]

/-- Tile-call extraction distributes over trace concatenation. -/
theorem tileCalls_append (l1 l2 : List TraceOp) :
    tileCalls (l1 ++ l2) = tileCalls l1 ++ tileCalls l2 := by
  induction l1 with
  | nil => rfl
  | cons a t ih => cases a <;> simp [tileCalls, ih]

/-- Log-hook invocations contribute no accelerometer-hook calls. -/
theorem accelCalls_logHooks_append (hooks : List Nat) (m : LogMsg) (l : List TraceOp) :
    accelCalls (hooks.map (fun f => TraceOp.callLogHook f m) ++ l) = accelCalls l := by
  induction hooks with
  | nil => rfl
  | cons a as ih => simpa [accelCalls] using ih

/-- Extracting accelerometer calls from a block of invocation ops. -/
theorem accelCalls_map_callAccel (hooks : List Nat) (a : Option (Int × Int × Int))
    (x y z : Int) :
    accelCalls (hooks.map (fun f => TraceOp.callAccelHook f a x y z)) =
      hooks.map (fun f => (f, x, y, z)) := by
  induction hooks with
  | nil => rfl
  | cons h hs ih => simp [accelCalls, ih]

/-- Extracting pants calls from a block of invocation ops. -/
theorem pantsCalls_map_callPants (hooks : List Nat) (a : Option String) (p : String) :
    pantsCalls (hooks.map (fun f => TraceOp.callPantsHook f a p)) =
      hooks.map (fun f => (f, p)) := by
  induction hooks with
  | nil => rfl
  | cons h hs ih => simp [pantsCalls, ih]

/-- Claim C1 (the code contradicts it): with `autoReconnect = true` (the
constructor's fixed value - no code path ever clears it) and no device found
by any scan, one `connect()` execution performs exactly 3 scans before its
loop breaks, but its trailing `disconnect()` schedules a new `connect()`
task, so after two executions 6 scans have occurred: a 5th scan is issued
and the session never reaches a terminal stopped state. -/
theorem retry_bound_not_fail_closed :
    connectLoopScans true 0 = 3 ∧
    (disconnect_step (marioInit .notCallableNotIterable .notCallableNotIterable
      .notCallableNotIterable .notCallableNotIterable)).2 = true ∧
    sessionScansNoDevice true 2 = 6 ∧ 5 ≤ sessionScansNoDevice true 2 := by
  have h : connectLoopScans true 0 = 3 := by
    simp [connectLoopScans]
  refine ⟨h, ?_, ?_, ?_⟩
  · simp [disconnect_step, marioInit, AddLogHook, AddPantsHook, AddTileHook,
      AddAccelerometerHook, addHooksTo]
  · simp [sessionScansNoDevice, h]
  · simp [sessionScansNoDevice, h]

/-- Claim C2, counterexample: the 5-byte pants frame `45 02` decodes without
any error and invokes a registered pants hook, refuting both halves of the
claim for frames of length 3-5. -/
theorem short_frame_decodes_and_invokes_hook :
    (handle_events tinyTables st0 [0x06, 0x00, 0x45, 0x02, 0x05]).error = none ∧
    ((handle_events tinyTables st0 [0x06, 0x00, 0x45, 0x02, 0x05]).trace.any
      isHookCall) = true ∧
    ([0x06, 0x00, 0x45, 0x02, 0x05] : List Byte).length < 6 := by
  refine ⟨rfl, rfl, by decide⟩

/-- Claim C2 as amended: for every frame shorter than 3 bytes, decoding fails
with an index error (the spec's `MalformedFrame`) before any side effect, so
no hook of any category is invoked and the state is unchanged. -/
theorem short_frame_raises (T : Tables) (st : MarioState) (data : List Byte)
    (h : data.length < 3) :
    handle_events T st data = ⟨st, [], some .indexError⟩ := by
  have hnone : data[2]? = none := by
    rw [List.getElem?_eq_none_iff]
    omega
  simp [handle_events, hnone]

/-- Witness for the amended claim C2 at the 1-byte frame `[0x05]`. -/
theorem short_frame_raises_witness :
    handle_events tinyTables st0 [0x05] = ⟨st0, [], some .indexError⟩ :=
  short_frame_raises tinyTables st0 [0x05] (by decide)

/-- Claim C3: a frame with `frame[2] = 0x45`, `frame[3] = 0x01`,
`frame[5] = 0x00` (never the idle pattern, whose byte 5 is `0xFF`) decodes
without error to a tile event resolved by looking up `frame[4]` in
`HEX_TO_RGB_TILE`; the cached `ground` and `recentTile` are set to that tile,
every tile hook receives it, and a code absent from the table yields the
unknown-tile placeholder string carrying the raw code. -/
theorem camera_tile_frame_decodes (T : Tables) (st : MarioState)
    (data : List Byte) (c d6 : Nat)
    (h2 : data[2]? = some 0x45) (h3 : data[3]? = some 0x01)
    (h4 : data[4]? = some c) (h5 : data[5]? = some 0x00)
    (h6 : data[6]? = some d6) :
    (handle_events T st data).error = none ∧
    (handle_events T st data).state.ground =
      some ((T.HEX_TO_RGB_TILE c).getD (unknownTileStr c)) ∧
    (handle_events T st data).state.recentTile =
      some ((T.HEX_TO_RGB_TILE c).getD (unknownTileStr c)) ∧
    tileCalls (handle_events T st data).trace =
      st.tileEventHooks.map
        (fun f => (f, (T.HEX_TO_RGB_TILE c).getD (unknownTileStr c))) ∧
    (T.HEX_TO_RGB_TILE c = none →
      (T.HEX_TO_RGB_TILE c).getD (unknownTileStr c) =
        "Unkown Tile Code: " ++ pyHex c) := by
  have hidle : ¬((0 : Nat) = d6 ∧ d6 = 0xff) := by rintro ⟨h, h'⟩; omega
  refine ⟨?_, ?_, ?_, ?_, fun hnone => by simp [hnone, unknownTileStr]⟩ <;>
    simp [handle_events, h2, h3, h4, h5, h6, hidle, callTileHooks, logTrace,
      tileCalls_logHooks_append, tileCalls_map_callTile, tileCalls]

/-- Witness for claim C3 at a concrete frame whose tile code `0x21` is absent
from the table, showing the unknown-tile placeholder in the cached ground. -/
theorem camera_tile_frame_decodes_witness :
    (handle_events tinyTables st0 [0, 0, 0x45, 0x01, 0x21, 0x00, 0x05]).error = none ∧
    (handle_events tinyTables st0 [0, 0, 0x45, 0x01, 0x21, 0x00, 0x05]).state.ground =
      some ("Unkown Tile Code: " ++ pyHex 0x21) := by
  have h := camera_tile_frame_decodes tinyTables st0
    [0, 0, 0x45, 0x01, 0x21, 0x00, 0x05] 0x21 0x05 rfl rfl rfl rfl rfl
  refine ⟨h.1, ?_⟩
  have := h.2.1
  simpa [tinyTables, unknownTileStr] using this

/-- Claim C4: `signed` is the two's-complement reading of a byte
(`b - 256` when `b > 127`, else `b`; in particular `0x00 = 0`, `0x7F = 127`,
`0x80 = -128`, `0xFF = -1`), and the raw accelerometer path invokes every
accelerometer hook with `signed` applied to frame bytes 4, 5 and 6. -/
theorem signed_twos_complement :
    (∀ b : Nat, b ≤ 255 →
      (127 < b → signed b = (b : Int) - 256) ∧ (b ≤ 127 → signed b = (b : Int))) ∧
    signed 0x00 = 0 ∧ signed 0x7f = 127 ∧ signed 0x80 = -128 ∧ signed 0xff = -1 ∧
    (∀ (T : Tables) (st : MarioState) (data : List Byte) (d4 d5 d6 : Nat),
      data[2]? = some 0x45 → data[3]? = some 0x00 →
      (data.drop 4).take 2 ≠ data.drop 6 →
      data[4]? = some d4 → data[5]? = some d5 → data[6]? = some d6 →
      accelCalls (handle_events T st data).trace =
        st.accelerometerEventHooks.map
          (fun f => (f, signed d4, signed d5, signed d6))) := by
  refine ⟨?_, by decide, by decide, by decide, by decide, ?_⟩
  · intro b _hb
    constructor <;> intro h
    · have hc : b > 127 := h
      rw [signed, if_pos hc]
    · have hc : ¬(b > 127) := by omega
      rw [signed, if_neg hc]
  · intro T st data d4 d5 d6 h2 h3 hne h4 h5 h6
    simp [handle_events, h2, h3, hne, h4, h5, h6, callAccelerometerHooks,
      logTrace, accelCalls_logHooks_append, accelCalls_map_callAccel, accelCalls]

/-- Witness for claim C4: `signed 200 = -56` and a concrete raw-mode frame
dispatches `signed` of bytes 4, 5, 6 to the accelerometer hook. -/
theorem signed_twos_complement_witness :
    signed 200 = (200 : Int) - 256 ∧
    accelCalls (handle_events tinyTables st0 [0, 0, 0x45, 0x00, 10, 200, 30]).trace =
      st0.accelerometerEventHooks.map (fun f => (f, signed 10, signed 200, signed 30)) :=
  ⟨(signed_twos_complement.1 200 (by decide)).1 (by decide),
   signed_twos_complement.2.2.2.2.2 tinyTables st0 _ 10 200 30 rfl rfl
     (by decide) rfl rfl rfl⟩

/-- Claim C5: `set_volume` clamps its argument into `[0, 100]` before
encoding and never fails: -5 behaves exactly as 0, 150 exactly as 100, and
for every argument the clamped value lies in `[0, 100]` and is the byte sent
(when a client is live) as byte 5 of the command. -/
theorem set_volume_clamps (mute : List Byte) (st : MarioState) :
    set_volume mute st (-5) = set_volume mute st 0 ∧
    set_volume mute st 150 = set_volume mute st 100 ∧
    (∀ v : Int, 0 ≤ min (max v 0) 100 ∧ min (max v 0) 100 ≤ 100 ∧
      (st.client = true →
        set_volume mute st v =
          (st, [.writeGatt (mute.take 5 ++ [(min (max v 0) 100).toNat])]))) := by
  refine ⟨by norm_num [set_volume], by norm_num [set_volume],
    fun v => ⟨by omega, by omega, fun hc => by simp [set_volume, hc]⟩⟩

/-- Witness for claim C5: setting volume 150 on a live client writes 100. -/
theorem set_volume_clamps_witness :
    set_volume [6, 0, 6, 1, 0, 0] st0 150 =
      (st0, [.writeGatt [6, 0, 6, 1, 0, 100]]) := by
  have h := ((set_volume_clamps [6, 0, 6, 1, 0, 0] st0).2.2 150).2.2 rfl
  simpa using h

/-- Claim C6: `request_port_value` rejects every port outside
`(0,1,2,3,4,6)` with the assertion error (the spec's `ValidationError`)
before any transport write and with the state unchanged; port 2 with a live
client issues exactly one write of the request command with byte 3 set to
the port. -/
theorem request_port_value_validation (cmd : List Byte) (st : MarioState) (port : Nat)
    (h : ¬(port = 0 ∨ port = 1 ∨ port = 2 ∨ port = 3 ∨ port = 4 ∨ port = 6)) :
    request_port_value cmd st port = (st, [], some .assertionError) ∧
    (st.client = true →
      request_port_value cmd st 2 = (st, [.writeGatt (cmd.set 3 2)], none)) := by
  constructor
  · rw [request_port_value, if_neg h]
  · intro hc; simp [request_port_value, hc]

/-- Witness for claim C6 at port 5 (rejected, no write) and port 2 (written). -/
theorem request_port_value_validation_witness :
    request_port_value [8, 0, 0x21, 0, 1, 5] st0 5 = (st0, [], some .assertionError) ∧
    request_port_value [8, 0, 0x21, 0, 1, 5] st0 2 =
      (st0, [.writeGatt [8, 0, 0x21, 2, 1, 5]], none) := by
  have h := request_port_value_validation [8, 0, 0x21, 0, 1, 5] st0 5 (by decide)
  exact ⟨h.1, by simpa using h.2 rfl⟩

/-- Claim C7: registering tile hooks A then B appends them in order, a tile
dispatch invokes the whole registry in registration order (A's call precedes
B's; a hook registered twice appears once per registration, since A and B
are arbitrary and may coincide), and the accelerometer and pants dispatches
likewise call their registries in stored order. -/
theorem tile_hooks_in_registration_order (st : MarioState) (A B : Nat)
    (tile p : String) (x y z : Int) :
    (AddTileHook (.callable B) (AddTileHook (.callable A) st)).tileEventHooks =
      st.tileEventHooks ++ [A, B] ∧
    tileCalls (callTileHooks
        (AddTileHook (.callable B) (AddTileHook (.callable A) st)) tile).2 =
      (st.tileEventHooks ++ [A, B]).map (fun f => (f, tile)) ∧
    accelCalls (callAccelerometerHooks st x y z).2 =
      st.accelerometerEventHooks.map (fun f => (f, x, y, z)) ∧
    pantsCalls (callPantsHooks st p).2 =
      st.pantsEventHooks.map (fun f => (f, p)) := by
  refine ⟨?_, ?_, ?_, ?_⟩ <;>
    simp [AddTileHook, addHooksTo, callTileHooks, callAccelerometerHooks,
      callPantsHooks, tileCalls, accelCalls, pantsCalls, tileCalls_append,
      tileCalls_map_callTile, accelCalls_map_callAccel, pantsCalls_map_callPants]

/-- Claim C8: in every trace `_handle_events` can produce, each hook
invocation observes the cached field already equal to the payload being
dispatched, and each of the three dispatch helpers writes its cached field
first and then calls its hooks (the set op heads the trace). -/
theorem cache_update_precedes_dispatch (T : Tables) (st : MarioState)
    (data : List Byte) (tile p : String) (x y z : Int) :
    (handle_events T st data).trace.all cacheConsistent = true ∧
    callTileHooks st tile =
      ({ st with ground := some tile },
       .setGround tile :: st.tileEventHooks.map
         (fun f => .callTileHook f (some tile) tile)) ∧
    callAccelerometerHooks st x y z =
      ({ st with acceleration := some (x, y, z) },
       .setAcceleration x y z :: st.accelerometerEventHooks.map
         (fun f => .callAccelHook f (some (x, y, z)) x y z)) ∧
    callPantsHooks st p =
      ({ st with pants := some p },
       .setPants p :: st.pantsEventHooks.map
         (fun f => .callPantsHook f (some p) p)) := by
  refine ⟨?_, rfl, rfl, rfl⟩
  unfold handle_events
  repeat' split
  all_goals simp [callTileHooks, callAccelerometerHooks, callPantsHooks,
    logTrace, cacheConsistent, List.all_map, List.all_append, Function.comp]

/-- Claim C9: passing a value that is neither callable nor iterable (such as
`None`, the constructor's default) to any of the four hook registration
methods changes nothing and raises nothing, and a `Mario` constructed with
the default `None` hook arguments starts with all four registries empty. -/
theorem non_callable_registration_noop (st : MarioState) :
    AddTileHook .notCallableNotIterable st = st ∧
    AddAccelerometerHook .notCallableNotIterable st = st ∧
    AddPantsHook .notCallableNotIterable st = st ∧
    AddLogHook .notCallableNotIterable st = st ∧
    (marioInit .notCallableNotIterable .notCallableNotIterable
      .notCallableNotIterable .notCallableNotIterable) =
      { pants := none, ground := none, acceleration := none, recentTile := none
        accelerometerEventHooks := [], tileEventHooks := []
        pantsEventHooks := [], logEventHooks := []
        client := false, run := false, autoReconnect := true } := by
  refine ⟨?_, ?_, ?_, ?_, ?_⟩ <;>
    simp [marioInit, AddTileHook, AddAccelerometerHook, AddPantsHook,
      AddLogHook, addHooksTo]

/-- Claim C10: unregistering a callable removes exactly the first occurrence
from the tile registry (given its decomposition around that occurrence), a
remaining duplicate is still invoked by the next tile dispatch, and removing
a hook absent from all four registries changes nothing. -/
theorem remove_hook_first_occurrence (st : MarioState) (f : Nat) (l1 l2 : List Nat)
    (hsplit : st.tileEventHooks = l1 ++ f :: l2) (hnot : f ∉ l1) :
    (RemoveEventsHook (.callable f) st).tileEventHooks = l1 ++ l2 ∧
    (∀ tile : String, f ∈ l2 →
      (f, tile) ∈ tileCalls (callTileHooks (RemoveEventsHook (.callable f) st) tile).2) ∧
    (∀ st' : MarioState,
      f ∉ st'.tileEventHooks → f ∉ st'.accelerometerEventHooks →
      f ∉ st'.pantsEventHooks → f ∉ st'.logEventHooks →
      RemoveEventsHook (.callable f) st' = st') := by
  have herase : (RemoveEventsHook (.callable f) st).tileEventHooks = l1 ++ l2 := by
    simp [RemoveEventsHook, hsplit, List.erase_append_right _ hnot,
      List.erase_cons_head]
  refine ⟨herase, ?_, ?_⟩
  · intro tile hf
    have hcalls : tileCalls (callTileHooks (RemoveEventsHook (.callable f) st) tile).2 =
        (l1 ++ l2).map (fun g => (g, tile)) := by
      simp [callTileHooks, tileCalls, tileCalls_map_callTile, tileCalls_append, herase]
    rw [hcalls]
    exact List.mem_map_of_mem _ (List.mem_append_right _ hf)
  · intro st' h1 h2 h3 h4
    simp [RemoveEventsHook, List.erase_of_not_mem, h1, h2, h3, h4]

/-- Witness for claim C10: removing hook 5 from registry `[5, 3, 5]` leaves
`[3, 5]`, and the surviving duplicate 5 is still called on the next tile
dispatch. -/
theorem remove_hook_first_occurrence_witness :
    (RemoveEventsHook (.callable 5)
      { st0 with tileEventHooks := [5, 3, 5] }).tileEventHooks = [3, 5] ∧
    (5, "t") ∈ tileCalls (callTileHooks
      (RemoveEventsHook (.callable 5) { st0 with tileEventHooks := [5, 3, 5] }) "t").2 := by
  have h := remove_hook_first_occurrence { st0 with tileEventHooks := [5, 3, 5] }
    5 [] [3, 5] rfl (by decide)
  exact ⟨h.1, h.2.1 "t" (by decide)⟩

end PyLegoMario
